import Mathlib

/-!
Shallow embedding of `.github/workflows/scripts/ghstack-perm-check.py`.

The script validates that a ghstack stacked-PR chain is ready to land:
it extracts the stack of PR numbers from the commit log, checks that each
PR has an approving review, and then polls the head PR's mergeable state
until a terminal outcome.  Network and process effects (HTTP responses,
clock readings) are modelled as explicit oracle inputs; `must(cond, msg)`
failures (print + PR comment + `exit(1)`) are modelled as a fatal outcome
carrying the message.
-/

/-- A commit status record, as returned by the combined-status endpoint:
`{"context": ..., "state": ...}`. -/
structure Status where
  context : String
  state : String
  deriving DecidableEq, Repr

/-- The hard-coded allow-list of land-blocking status contexts in the
source (`land_blocking_statuses = [ ... ]` with only a placeholder
comment inside, i.e. empty). -/
def land_blocking_statuses : List String := []

/-- One iteration of the `for status in statuses` loop body of
`check_blocking_statuses`: the accumulator holds
(`failed_statuses`, `pending_statuses`), each appended to in encounter
order. -/
def cbsUpdate (land_blocking : List String) (acc : List String × List String)
    (status : Status) : List String × List String :=
  if status.context ∈ land_blocking then
    if status.state = "failure" then (acc.1 ++ [status.context], acc.2)
    else if status.state = "pending" then (acc.1, acc.2 ++ [status.context])
    else acc
  else acc

/-- `check_blocking_statuses`, generalised over the land-blocking
allow-list (which the source hard-codes as the empty placeholder
`land_blocking_statuses` and the spec treats as configuration).  Mirrors
the source loop and the final
`if failed_statuses: ... elif pending_statuses: ... else ...` decision. -/
def check_blocking_statusesWith (land_blocking : List String)
    (statuses : List Status) : String × List String :=
  let acc := statuses.foldl (cbsUpdate land_blocking) ([], [])
  let failed_statuses := acc.1
  let pending_statuses := acc.2
  if failed_statuses ≠ [] then ("failed", failed_statuses)
  else if pending_statuses ≠ [] then ("pending", pending_statuses)
  else ("success", [])

/-- `check_blocking_statuses` exactly as in the source: the allow-list is
the hard-coded (empty) `land_blocking_statuses`. -/
def check_blocking_statuses (statuses : List Status) : String × List String :=
  check_blocking_statusesWith land_blocking_statuses statuses

/-- A status record counts as a blocking failure when its context is in
the allow-list and its state is `"failure"`. -/
def isBlockingFailure (blocking : List String) (s : Status) : Bool :=
  decide (s.context ∈ blocking) && decide (s.state = "failure")

/-- A status record counts as blocking-pending when its context is in the
allow-list and its state is `"pending"`. -/
def isBlockingPending (blocking : List String) (s : Status) : Bool :=
  decide (s.context ∈ blocking) && decide (s.state = "pending")

/-- The contexts of exactly the blocking-set records with state
`"failure"`, in status-list order. -/
def blockingFailures (blocking : List String) (statuses : List Status) : List String :=
  (statuses.filter (isBlockingFailure blocking)).map Status.context

/-- The contexts of exactly the blocking-set records with state
`"pending"`, in status-list order. -/
def blockingPendings (blocking : List String) (statuses : List Status) : List String :=
  (statuses.filter (isBlockingPending blocking)).map Status.context

lemma foldl_cbsUpdate (blocking : List String) (l : List Status)
    (a b : List String) :
    l.foldl (cbsUpdate blocking) (a, b) =
      (a ++ blockingFailures blocking l, b ++ blockingPendings blocking l) := by
  induction l generalizing a b with
  | nil => simp [blockingFailures, blockingPendings]
  | cons s t ih =>
    by_cases hc : s.context ∈ blocking
    · by_cases hf : s.state = "failure"
      · simp [cbsUpdate, hc, hf, ih, blockingFailures, blockingPendings,
          isBlockingFailure, isBlockingPending, List.filter_cons]
      · by_cases hp : s.state = "pending"
        · simp [cbsUpdate, hc, hf, hp, ih, blockingFailures, blockingPendings,
            isBlockingFailure, isBlockingPending, List.filter_cons]
        · simp [cbsUpdate, hc, hf, hp, ih, blockingFailures, blockingPendings,
            isBlockingFailure, isBlockingPending, List.filter_cons]
    · simp [cbsUpdate, hc, ih, blockingFailures, blockingPendings,
        isBlockingFailure, isBlockingPending, List.filter_cons]

lemma check_blocking_statusesWith_eq (blocking : List String)
    (statuses : List Status) :
    check_blocking_statusesWith blocking statuses =
      (if blockingFailures blocking statuses ≠ [] then
        ("failed", blockingFailures blocking statuses)
      else if blockingPendings blocking statuses ≠ [] then
        ("pending", blockingPendings blocking statuses)
      else ("success", [])) := by
  unfold check_blocking_statusesWith
  rw [foldl_cbsUpdate]
  simp

lemma blockingFailures_eq_nil_iff (blocking : List String) (statuses : List Status) :
    blockingFailures blocking statuses = [] ↔
      ∀ s ∈ statuses, ¬(s.context ∈ blocking ∧ s.state = "failure") := by
  simp [blockingFailures, List.filter_eq_nil_iff, isBlockingFailure]

lemma blockingPendings_eq_nil_iff (blocking : List String) (statuses : List Status) :
    blockingPendings blocking statuses = [] ↔
      ∀ s ∈ statuses, ¬(s.context ∈ blocking ∧ s.state = "pending") := by
  simp [blockingPendings, List.filter_eq_nil_iff, isBlockingPending]

/-- C7: for every status list and blocking set, if some record whose
context is in the blocking set has state `"failure"`, then
`check_blocking_statuses` classifies the list as `"failed"` and the
returned name list is exactly the contexts of the blocking-set records
with state `"failure"` (pending blocking records present or not). -/
theorem C7_classifier_failure_rule (blocking : List String)
    (statuses : List Status)
    (h : ∃ s ∈ statuses, s.context ∈ blocking ∧ s.state = "failure") :
    check_blocking_statusesWith blocking statuses =
      ("failed", blockingFailures blocking statuses) := by
  have hne : blockingFailures blocking statuses ≠ [] := by
    rw [Ne, blockingFailures_eq_nil_iff]
    push_neg
    obtain ⟨s, hs, hp⟩ := h
    exact ⟨s, hs, hp⟩
  rw [check_blocking_statusesWith_eq, if_pos hne]

/-- Witness for C7 at a concrete input: blocking set `["ci/a", "ci/b"]`,
statuses containing a failing and a pending blocking record plus a
failing non-blocking record. -/
theorem C7_classifier_failure_rule_witness :
    check_blocking_statusesWith ["ci/a", "ci/b"]
        [⟨"ci/a", "failure"⟩, ⟨"ci/b", "pending"⟩, ⟨"other", "failure"⟩] =
      ("failed", ["ci/a"]) := by
  have := C7_classifier_failure_rule ["ci/a", "ci/b"]
    [⟨"ci/a", "failure"⟩, ⟨"ci/b", "pending"⟩, ⟨"other", "failure"⟩]
    ⟨⟨"ci/a", "failure"⟩, by decide, by decide, rfl⟩
  rw [this]
  decide

/-- C8: for every status list and blocking set where no blocking-set
record has state `"failure"` but at least one has state `"pending"`, the
classification is `"pending"` and the returned name list is exactly the
contexts of the pending blocking-set records. -/
theorem C8_classifier_pending_rule (blocking : List String)
    (statuses : List Status)
    (hnf : ∀ s ∈ statuses, ¬(s.context ∈ blocking ∧ s.state = "failure"))
    (hp : ∃ s ∈ statuses, s.context ∈ blocking ∧ s.state = "pending") :
    check_blocking_statusesWith blocking statuses =
      ("pending", blockingPendings blocking statuses) := by
  have hf : blockingFailures blocking statuses = [] :=
    (blockingFailures_eq_nil_iff blocking statuses).mpr hnf
  have hpe : blockingPendings blocking statuses ≠ [] := by
    rw [Ne, blockingPendings_eq_nil_iff]
    push_neg
    obtain ⟨s, hs, hps⟩ := hp
    exact ⟨s, hs, hps⟩
  rw [check_blocking_statusesWith_eq, if_neg (by simp [hf]), if_pos hpe]

/-- Witness for C8 at a concrete input: one pending blocking record, one
succeeding blocking record, one failing non-blocking record. -/
theorem C8_classifier_pending_rule_witness :
    check_blocking_statusesWith ["ci/a", "ci/b"]
        [⟨"ci/a", "success"⟩, ⟨"ci/b", "pending"⟩, ⟨"other", "failure"⟩] =
      ("pending", ["ci/b"]) := by
  have := C8_classifier_pending_rule ["ci/a", "ci/b"]
    [⟨"ci/a", "success"⟩, ⟨"ci/b", "pending"⟩, ⟨"other", "failure"⟩]
    (by decide)
    ⟨⟨"ci/b", "pending"⟩, by decide, by decide, rfl⟩
  rw [this]
  decide

/-- C9: (1) for every status list and blocking set, if the blocking set
is empty or every blocking-set record has state `"success"`, the
classification is `"success"` with an empty name list; and (2) in
particular, since the source's `land_blocking_statuses` allow-list is
empty, `check_blocking_statuses` returns `("success", [])` on every
input status list. -/
theorem C9_classifier_success_rule :
    (∀ (blocking : List String) (statuses : List Status),
        (blocking = [] ∨ ∀ s ∈ statuses, s.context ∈ blocking → s.state = "success") →
        check_blocking_statusesWith blocking statuses = ("success", [])) ∧
    ∀ statuses : List Status, check_blocking_statuses statuses = ("success", []) := by
  have H : ∀ (blocking : List String) (statuses : List Status),
      (blocking = [] ∨ ∀ s ∈ statuses, s.context ∈ blocking → s.state = "success") →
      check_blocking_statusesWith blocking statuses = ("success", []) := by
    intro blocking statuses h
    have hok : ∀ s ∈ statuses, s.context ∈ blocking → s.state = "success" := by
      rcases h with h | h
      · intro s _ hs
        rw [h] at hs
        simp at hs
      · exact h
    have hf : blockingFailures blocking statuses = [] := by
      rw [blockingFailures_eq_nil_iff]
      intro s hs hcs
      have := hok s hs hcs.1
      rw [this] at hcs
      exact absurd hcs.2 (by decide)
    have hp : blockingPendings blocking statuses = [] := by
      rw [blockingPendings_eq_nil_iff]
      intro s hs hcs
      have := hok s hs hcs.1
      rw [this] at hcs
      exact absurd hcs.2 (by decide)
    rw [check_blocking_statusesWith_eq, if_neg (by simp [hf]), if_neg (by simp [hp])]
  exact ⟨H, fun statuses => H [] statuses (Or.inl rfl)⟩

/-- Witness for C9 at concrete inputs: the empty blocking set with a
failing status list, and `check_blocking_statuses` itself on that list. -/
theorem C9_classifier_success_rule_witness :
    check_blocking_statusesWith [] [⟨"ci/a", "failure"⟩] = ("success", []) ∧
    check_blocking_statuses [⟨"ci/a", "failure"⟩] = ("success", []) :=
  ⟨C9_classifier_success_rule.1 [] [⟨"ci/a", "failure"⟩] (Or.inl rfl),
   C9_classifier_success_rule.2 [⟨"ci/a", "failure"⟩]⟩

/-! ## Stack Resolver integrity check

`main` extracts `pr_numbers` from the commit log and then runs
`must(pr_numbers and pr_numbers[0] == NUMBER, "Extracted PR numbers don't seem right!")`.
An empty list is falsy in Python, so the condition holds exactly when the
list is nonempty and its first element equals the input PR number. -/

/-- The message posted when the extracted stack fails the integrity
check (the spec's `StackMismatch`). -/
def stackMismatchMsg : String := "Extracted PR numbers don't seem right!"

/-- The Python truthiness condition
`pr_numbers and pr_numbers[0] == NUMBER`. -/
def stackHeadMatches (NUMBER : Int) : List Int → Bool
  | [] => false
  | n :: _ => n == NUMBER

/-- The `must(...)` guard on the extracted stack: `.ok` when the
condition holds, otherwise the fatal `StackMismatch` message. -/
def stack_integrity_check (NUMBER : Int) (pr_numbers : List Int) :
    Except String Unit :=
  if stackHeadMatches NUMBER pr_numbers then Except.ok ()
  else Except.error stackMismatchMsg

/-- C5: the stack integrity check fails with the `StackMismatch` message
exactly when the extracted PR-number list is empty or its first element
differs from the input PR number; in particular input `100` with
extracted sequence `[101, 100]` fails. -/
theorem C5_stack_integrity_check :
    (∀ (NUMBER : Int) (pr_numbers : List Int),
        stack_integrity_check NUMBER pr_numbers = Except.error stackMismatchMsg ↔
          (pr_numbers = [] ∨ pr_numbers.head? ≠ some NUMBER)) ∧
    stack_integrity_check 100 [101, 100] = Except.error stackMismatchMsg := by
  constructor
  · intro NUMBER pr_numbers
    cases pr_numbers with
    | nil => simp [stack_integrity_check, stackHeadMatches]
    | cons n t =>
      by_cases h : n = NUMBER
      · simp [stack_integrity_check, stackHeadMatches, h]
      · simp [stack_integrity_check, stackHeadMatches, h]
  · rfl

/-- Witness for C5: applying the iff at a concrete mismatching input. -/
theorem C5_stack_integrity_check_witness :
    stack_integrity_check 7 [] = Except.error stackMismatchMsg :=
  (C5_stack_integrity_check.1 7 []).mpr (Or.inl rfl)

/-! ## Approval Gate

`main` then loops over `pr_numbers`; for each `n` it fetches the PR's
reviews (`must(resp.ok, ...)`) and requires
`any(review["state"] == "APPROVED" for review in reviews)`
(`must(has_approval, ...)`).  A `must` failure exits the process, so no
later PR's reviews are fetched.  The HTTP collaborator is modelled as an
oracle `reviews : Int → Option (List Review)` (`none` = response not ok);
the gate returns its outcome together with the list of PR numbers whose
reviews it actually fetched, in fetch order. -/

/-- A pull-request review: only its state matters
(`review["state"] == "APPROVED"`). -/
structure Review where
  state : String
  deriving DecidableEq, Repr

/-- Message of the `must(resp.ok, ...)` guard for the reviews request. -/
def reviewsErrMsg (n : Int) : String :=
  "Error getting reviews for PR #" ++ toString n ++ "!"

/-- Message of the `must(has_approval, ...)` guard (the spec's
`NotApproved`), naming the specific PR. -/
def noApprovalsMsg (n : Int) : String :=
  "PR #" ++ toString n ++ " has no approvals!"

/-- `any(review["state"] == "APPROVED" for review in reviews)`. -/
def hasApproval (reviews : List Review) : Bool :=
  reviews.any (fun review => review.state == "APPROVED")

/-- The approval-gate loop of `main` over the stack, also recording which
PR numbers had their reviews fetched (in order).  A `must` failure stops
the loop immediately, mirroring `exit(1)`. -/
def approvalGate (reviews : Int → Option (List Review)) :
    List Int → Except String Unit × List Int
  | [] => (Except.ok (), [])
  | n :: rest =>
    match reviews n with
    | none => (Except.error (reviewsErrMsg n), [n])
    | some rs =>
      if hasApproval rs then
        let r := approvalGate reviews rest
        (r.1, n :: r.2)
      else (Except.error (noApprovalsMsg n), [n])

/-- C6: the approval gate checks reviews in stack order and fails fast:
if every PR before `n` in the stack fetches successfully and has an
approving review, while `n` fetches successfully but has no approving
review, the gate returns the `NotApproved` failure naming `n` and the
list of PRs whose reviews were fetched is exactly the prefix up to and
including `n` — reviews of the PRs after `n` are never fetched. -/
theorem C6_approval_gate_fail_fast (reviews : Int → Option (List Review))
    (pre : List Int) (n : Int) (post : List Int)
    (hpre : ∀ m ∈ pre, ∃ rs, reviews m = some rs ∧ hasApproval rs = true)
    (rsn : List Review) (hn : reviews n = some rsn)
    (hna : hasApproval rsn = false) :
    approvalGate reviews (pre ++ n :: post) =
      (Except.error (noApprovalsMsg n), pre ++ [n]) := by
  induction pre with
  | nil => simp [approvalGate, hn, hna]
  | cons m t ih =>
    obtain ⟨rs, hrs, hap⟩ := hpre m (List.mem_cons_self m t)
    have ht : ∀ m ∈ t, ∃ rs, reviews m = some rs ∧ hasApproval rs = true :=
      fun m hm => hpre m (List.mem_cons_of_mem _ hm)
    simp [approvalGate, hrs, hap, ih ht]

/-- Witness for C6: stack `[10, 11, 12]` where PR 11 has no approving
review; the gate fails naming PR 11 and fetches only `[10, 11]`. -/
theorem C6_approval_gate_fail_fast_witness :
    approvalGate
        (fun m => if m == 11 then some [⟨"COMMENTED"⟩] else some [⟨"APPROVED"⟩])
        [10, 11, 12] =
      (Except.error (noApprovalsMsg 11), [10, 11]) :=
  C6_approval_gate_fail_fast
    (fun m => if m == 11 then some [⟨"COMMENTED"⟩] else some [⟨"APPROVED"⟩])
    [10] 11 [12]
    (by intro m hm; simp at hm; subst hm; exact ⟨[⟨"APPROVED"⟩], by decide, by decide⟩)
    [⟨"COMMENTED"⟩] (by decide) (by decide)

/-! ## Merge-State Poller (`check_pr_status`)

`check_pr_status(pr_number)` loops:

1. fetch the PR object (`must(resp.ok, ...)`), read
   `pr_obj.get("mergeable_state", "unknown")`;
2. if that state is `"unknown"`, sleep 2 s and re-fetch exactly once
   (`must(resp.ok, ... on retry ...)`), taking the refreshed object and
   state;
3. if the (possibly refreshed) state is `"unstable"`: fail with a
   timeout message when the elapsed time exceeds `MAX_WAIT_TIME`;
   otherwise fetch the combined status (`must(status_resp.ok, ...)`) and
   run `check_blocking_statuses` — `"failed"` is fatal, `"success"`
   posts a success comment and returns `pr_obj`, otherwise (pending)
   post a one-time waiting comment, sleep 30 s and loop;
4. `"blocked"` and `"dirty"` are fatal; `"clean"` returns `pr_obj`
   (posting a success comment first when a waiting comment had been
   posted); any other state is fatal with a message naming it.

Each loop iteration's external interactions are an `IterOracle`:
the two PR fetches (`none` = response not ok), the elapsed wall-clock
time `time.time() - start_time` read in the `"unstable"` branch, and the
combined-status fetch.  Comments posted by an iteration are returned
alongside the outcome. -/

/-- The part of the PR object the poller reads: `mergeable_state` (absent
key modelled as `none`, read back via the `.get(..., "unknown")`
default) and `head.sha` (used only to address the status fetch, which
the oracle already resolves). -/
structure PRObj where
  mergeable_state : Option String
  head_sha : String
  deriving DecidableEq, Repr

/-- `pr_obj.get("mergeable_state", "unknown")`. -/
def getMergeableState (pr_obj : PRObj) : String :=
  pr_obj.mergeable_state.getD "unknown"

/-- External interactions consumed by one iteration of the polling
loop. -/
structure IterOracle where
  /-- Result of the first PR fetch (`none` = `resp.ok` false). -/
  fetch1 : Option PRObj
  /-- Result of the retry fetch made only when the first state is
  `"unknown"`. -/
  refetch : Option PRObj
  /-- `time.time() - start_time` as read in the `"unstable"` branch. -/
  elapsed : ℚ
  /-- Result of the combined-status fetch for `pr_obj.head.sha`. -/
  statusFetch : Option (List Status)

/-- Outcome of one iteration of the `while True` loop: `return pr_obj`,
a fatal `must` failure, or fall through to the next iteration (always
with `waiting_comment_posted = True` once the pending branch ran).
Comments posted during the iteration are carried in order. -/
inductive StepResult where
  | done (pr_obj : PRObj) (comments : List String)
  | fatal (msg : String)
  | again (waiting_comment_posted : Bool) (comments : List String)
  deriving DecidableEq, Repr

/-- `must(resp.ok, ...)` message for the first PR fetch. -/
def prFetchErrMsg (pr_number : Int) : String :=
  "Error getting PR #" ++ toString pr_number ++ "!"

/-- `must(resp.ok, ...)` message for the retry PR fetch. -/
def prRetryErrMsg (pr_number : Int) : String :=
  "Error getting PR #" ++ toString pr_number ++ " on retry!"

/-- Timeout message; `MAX_WAIT_TIME // 60` is Python floor division. -/
def timeoutMsg (pr_number MAX_WAIT_TIME : Int) : String :=
  "PR #" ++ toString pr_number ++ " remained in unstable state for too long (over " ++
    toString (Int.fdiv MAX_WAIT_TIME 60) ++ " minutes)!"

/-- `must(status_resp.ok, ...)` message for the combined-status fetch. -/
def statusFetchErrMsg (pr_number : Int) : String :=
  "Error getting status checks for PR #" ++ toString pr_number ++ "!"

/-- Fatal message for a `"failed"` classification, joining the failing
context names. -/
def failingChecksMsg (pr_number : Int) (relevant_statuses : List String) : String :=
  "PR #" ++ toString pr_number ++ " has failing required status checks: " ++
    String.intercalate ", " relevant_statuses

/-- Body of `post_success_comment()`. -/
def successComment (pr_number : Int) : String :=
  "PR #" ++ toString pr_number ++ " status checks have completed successfully!"

/-- Body of the one-time waiting comment. -/
def waitingComment (pr_number : Int) : String :=
  "ghstack bot is waiting for PR #" ++ toString pr_number ++
    " status checks to complete..."

/-- Fatal message for `"blocked"`. -/
def blockedMsg (pr_number : Int) : String :=
  "PR #" ++ toString pr_number ++
    " is blocked from merging (possibly failing status checks)! Try doing `/land --force` if you want to ignore CI!"

/-- Fatal message for `"dirty"`. -/
def dirtyMsg (pr_number : Int) : String :=
  "PR #" ++ toString pr_number ++ " has merge conflicts that need to be resolved!"

/-- Fatal message of the final `else` branch, naming the literal
unrecognized state value. -/
def unexpectedStateMsg (pr_number : Int) (mergeable_state : String) : String :=
  "PR #" ++ toString pr_number ++ " is not ready to merge (state: " ++
    mergeable_state ++ ")!"

/-- The fetch/retry prefix of a loop iteration: the first fetch, and the
single bounded retry when the first state is `"unknown"`; yields the PR
object and mergeable state the rest of the iteration classifies, or the
fatal `must` message of a failed fetch. -/
def resolveMergeableState (pr_number : Int) (o : IterOracle) :
    Except String (PRObj × String) :=
  match o.fetch1 with
  | none => Except.error (prFetchErrMsg pr_number)
  | some pr_obj =>
    if getMergeableState pr_obj = "unknown" then
      match o.refetch with
      | none => Except.error (prRetryErrMsg pr_number)
      | some pr_obj2 => Except.ok (pr_obj2, getMergeableState pr_obj2)
    else Except.ok (pr_obj, getMergeableState pr_obj)

/-- The state-handling part of a loop iteration, applied to the resolved
PR object and mergeable state.  Parameterised (like
`check_blocking_statusesWith`) over the land-blocking allow-list the
classifier uses; the source instantiates it with the hard-coded empty
`land_blocking_statuses`. -/
def classifyMergeableState (blocking : List String) (pr_number MAX_WAIT_TIME : Int)
    (waiting_comment_posted : Bool) (o : IterOracle)
    (pr_obj : PRObj) (mergeable_state : String) : StepResult :=
  if mergeable_state = "unstable" then
    if o.elapsed > (MAX_WAIT_TIME : ℚ) then
      StepResult.fatal (timeoutMsg pr_number MAX_WAIT_TIME)
    else
      match o.statusFetch with
      | none => StepResult.fatal (statusFetchErrMsg pr_number)
      | some statuses =>
        let r := check_blocking_statusesWith blocking statuses
        if r.1 = "failed" then
          StepResult.fatal (failingChecksMsg pr_number r.2)
        else if r.1 = "success" then
          StepResult.done pr_obj [successComment pr_number]
        else if waiting_comment_posted then StepResult.again true []
        else StepResult.again true [waitingComment pr_number]
  else if mergeable_state = "blocked" then
    StepResult.fatal (blockedMsg pr_number)
  else if mergeable_state = "dirty" then
    StepResult.fatal (dirtyMsg pr_number)
  else if mergeable_state = "clean" then
    if waiting_comment_posted then
      StepResult.done pr_obj [successComment pr_number]
    else StepResult.done pr_obj []
  else StepResult.fatal (unexpectedStateMsg pr_number mergeable_state)

/-- One full iteration of the `while True` loop of `check_pr_status`. -/
def check_pr_statusStep (blocking : List String) (pr_number MAX_WAIT_TIME : Int)
    (waiting_comment_posted : Bool) (o : IterOracle) : StepResult :=
  match resolveMergeableState pr_number o with
  | Except.error msg => StepResult.fatal msg
  | Except.ok (pr_obj, mergeable_state) =>
    classifyMergeableState blocking pr_number MAX_WAIT_TIME
      waiting_comment_posted o pr_obj mergeable_state

/-- Overall outcome of running the polling loop against a finite trace
of per-iteration oracles: `returned` = `check_pr_status` returned
`pr_obj`; `fatal` = a `must` failure ended the process; `ranOut` = every
supplied iteration ended in the pending branch and the loop would poll
again.  Accumulates all comments posted so far. -/
inductive PollOutcome where
  | returned (pr_obj : PRObj) (comments : List String)
  | fatal (msg : String) (comments : List String)
  | ranOut (waiting_comment_posted : Bool) (comments : List String)
  deriving DecidableEq, Repr

/-- The `while True` loop of `check_pr_status`, driven by a finite trace
of iteration oracles, starting from `waiting_comment_posted` and the
comments already posted. -/
def check_pr_statusLoop (blocking : List String) (pr_number MAX_WAIT_TIME : Int)
    (waiting_comment_posted : Bool) (posted : List String) :
    List IterOracle → PollOutcome
  | [] => PollOutcome.ranOut waiting_comment_posted posted
  | o :: rest =>
    match check_pr_statusStep blocking pr_number MAX_WAIT_TIME
        waiting_comment_posted o with
    | StepResult.done pr_obj cs => PollOutcome.returned pr_obj (posted ++ cs)
    | StepResult.fatal msg => PollOutcome.fatal msg posted
    | StepResult.again w cs =>
      check_pr_statusLoop blocking pr_number MAX_WAIT_TIME w (posted ++ cs) rest

lemma check_pr_statusStep_resolved (blocking : List String)
    (pr_number MAX_WAIT_TIME : Int) (waiting_comment_posted : Bool)
    (o : IterOracle) (pr_obj : PRObj)
    (h1 : o.fetch1 = some pr_obj)
    (h2 : getMergeableState pr_obj ≠ "unknown") :
    check_pr_statusStep blocking pr_number MAX_WAIT_TIME
        waiting_comment_posted o =
      classifyMergeableState blocking pr_number MAX_WAIT_TIME
        waiting_comment_posted o pr_obj (getMergeableState pr_obj) := by
  simp [check_pr_statusStep, resolveMergeableState, h1, h2]

/-- C1 counterexample: a concrete trace whose first iteration fetches
mergeable state `"unknown"` and whose single retry fetch is still
`"unknown"`.  The claim says this is not a terminal failure and that the
loop re-polls on a subsequent iteration; the code instead falls into the
final `else` branch and aborts fatally with the unexpected-state message
naming `"unknown"` — the second trace entry (which would have returned
`"clean"`) is never reached. -/
theorem C1_unknown_still_unknown_counterexample :
    check_pr_statusLoop [] 1 1800 false []
        [⟨some ⟨some "unknown", "sha1"⟩, some ⟨some "unknown", "sha1"⟩, 0, none⟩,
         ⟨some ⟨some "clean", "sha1"⟩, none, 30, none⟩] =
      PollOutcome.fatal (unexpectedStateMsg 1 "unknown") [] := by
  rfl

/-- C1 amended: on an `"unknown"` merge state the poller re-fetches
exactly once (after the brief pause) and re-classifies from the
refreshed value; but if the refreshed value is itself still
`"unknown"`, the iteration falls through to the unrecognized-state
branch and fails fatally naming `"unknown"` — the loop does not re-poll. -/
theorem C1_unknown_refetch_once (blocking : List String)
    (pr_number MAX_WAIT_TIME : Int) (waiting_comment_posted : Bool)
    (o : IterOracle) (pr_obj0 pr_obj1 : PRObj)
    (h1 : o.fetch1 = some pr_obj0)
    (h2 : getMergeableState pr_obj0 = "unknown")
    (h3 : o.refetch = some pr_obj1) :
    (check_pr_statusStep blocking pr_number MAX_WAIT_TIME
        waiting_comment_posted o =
      classifyMergeableState blocking pr_number MAX_WAIT_TIME
        waiting_comment_posted o pr_obj1 (getMergeableState pr_obj1)) ∧
    (getMergeableState pr_obj1 = "unknown" →
      check_pr_statusStep blocking pr_number MAX_WAIT_TIME
          waiting_comment_posted o =
        StepResult.fatal (unexpectedStateMsg pr_number "unknown")) := by
  have hstep : check_pr_statusStep blocking pr_number MAX_WAIT_TIME
      waiting_comment_posted o =
    classifyMergeableState blocking pr_number MAX_WAIT_TIME
      waiting_comment_posted o pr_obj1 (getMergeableState pr_obj1) := by
    simp [check_pr_statusStep, resolveMergeableState, h1, h2, h3]
  refine ⟨hstep, fun h4 => ?_⟩
  rw [hstep, h4]
  simp [classifyMergeableState]

/-- Witness for C1's amended theorem at a concrete oracle whose retry
fetch is still `"unknown"`. -/
theorem C1_unknown_refetch_once_witness :
    check_pr_statusStep [] 1 1800 false
        ⟨some ⟨some "unknown", "sha1"⟩, some ⟨some "unknown", "sha1"⟩, 0, none⟩ =
      StepResult.fatal (unexpectedStateMsg 1 "unknown") :=
  (C1_unknown_refetch_once [] 1 1800 false
      ⟨some ⟨some "unknown", "sha1"⟩, some ⟨some "unknown", "sha1"⟩, 0, none⟩
      ⟨some "unknown", "sha1"⟩ ⟨some "unknown", "sha1"⟩ rfl rfl rfl).2 rfl

/-- C2: when an iteration's merge state is `"unstable"`, the timeout has
not elapsed, and the fetched statuses classify as `"success"`, the
poller posts the success comment and returns the PR object immediately —
the rest of the trace (any further polling iterations) is irrelevant,
even though the remote-reported state string was still `"unstable"`. -/
theorem C2_success_on_unstable (blocking : List String)
    (pr_number MAX_WAIT_TIME : Int) (waiting_comment_posted : Bool)
    (posted : List String) (o : IterOracle) (pr_obj : PRObj)
    (statuses : List Status) (rest : List IterOracle)
    (h1 : o.fetch1 = some pr_obj)
    (h2 : getMergeableState pr_obj = "unstable")
    (h3 : ¬ o.elapsed > (MAX_WAIT_TIME : ℚ))
    (h4 : o.statusFetch = some statuses)
    (h5 : (check_blocking_statusesWith blocking statuses).1 = "success") :
    check_pr_statusLoop blocking pr_number MAX_WAIT_TIME
        waiting_comment_posted posted (o :: rest) =
      PollOutcome.returned pr_obj (posted ++ [successComment pr_number]) := by
  have hstep : check_pr_statusStep blocking pr_number MAX_WAIT_TIME
      waiting_comment_posted o =
    StepResult.done pr_obj [successComment pr_number] := by
    rw [check_pr_statusStep_resolved blocking pr_number MAX_WAIT_TIME
      waiting_comment_posted o pr_obj h1 (by simp [h2]), h2]
    simp [classifyMergeableState, h3, h4, h5]
  simp [check_pr_statusLoop, hstep]

/-- Witness for C2: the spec's own example — blocking set `["ci/build"]`,
status list `[("ci/build", "success")]`, merge state `"unstable"`. -/
theorem C2_success_on_unstable_witness :
    check_pr_statusLoop ["ci/build"] 5 1800 false []
        [⟨some ⟨some "unstable", "sha1"⟩, none, 10, some [⟨"ci/build", "success"⟩]⟩,
         ⟨some ⟨some "unstable", "sha1"⟩, none, 40, some [⟨"ci/build", "success"⟩]⟩] =
      PollOutcome.returned ⟨some "unstable", "sha1"⟩ [successComment 5] :=
  C2_success_on_unstable ["ci/build"] 5 1800 false []
    ⟨some ⟨some "unstable", "sha1"⟩, none, 10, some [⟨"ci/build", "success"⟩]⟩
    ⟨some "unstable", "sha1"⟩ [⟨"ci/build", "success"⟩]
    [⟨some ⟨some "unstable", "sha1"⟩, none, 40, some [⟨"ci/build", "success"⟩]⟩]
    rfl rfl (by norm_num) rfl (by decide)

/-- C3: whenever an iteration's merge state is `"unstable"` and the
elapsed wall-clock time since the poll session began exceeds
`MAX_WAIT_TIME`, the poller fails fatally with the timeout message, and
that message names the PR. -/
theorem C3_unstable_timeout (blocking : List String)
    (pr_number MAX_WAIT_TIME : Int) (waiting_comment_posted : Bool)
    (o : IterOracle) (pr_obj : PRObj)
    (h1 : o.fetch1 = some pr_obj)
    (h2 : getMergeableState pr_obj = "unstable")
    (h3 : o.elapsed > (MAX_WAIT_TIME : ℚ)) :
    check_pr_statusStep blocking pr_number MAX_WAIT_TIME
        waiting_comment_posted o =
      StepResult.fatal (timeoutMsg pr_number MAX_WAIT_TIME) ∧
    ∃ tail, timeoutMsg pr_number MAX_WAIT_TIME =
      "PR #" ++ toString pr_number ++ tail := by
  constructor
  · rw [check_pr_statusStep_resolved blocking pr_number MAX_WAIT_TIME
      waiting_comment_posted o pr_obj h1 (by simp [h2]), h2]
    simp [classifyMergeableState, h3]
  · exact ⟨" remained in unstable state for too long (over " ++
      toString (Int.fdiv MAX_WAIT_TIME 60) ++ " minutes)!", by
        simp [timeoutMsg, String.append_assoc]⟩

/-- Witness for C3 at a concrete oracle with elapsed 1801 s against a
1800 s maximum wait. -/
theorem C3_unstable_timeout_witness :
    check_pr_statusStep [] 9 1800 false
        ⟨some ⟨some "unstable", "sha1"⟩, none, 1801, none⟩ =
      StepResult.fatal (timeoutMsg 9 1800) :=
  (C3_unstable_timeout [] 9 1800 false
      ⟨some ⟨some "unstable", "sha1"⟩, none, 1801, none⟩
      ⟨some "unstable", "sha1"⟩ rfl rfl (by norm_num)).1

/-- C4: terminal mapping of the poller.  For an iteration whose resolved
merge state is `ms`: `"blocked"` is a fatal "blocked from merging"
failure; `"dirty"` is a fatal merge-conflicts failure; `"clean"` returns
the PR object (posting a success comment exactly when a waiting comment
had been posted earlier); and any other unrecognized value is a fatal
failure whose message names that literal value. -/
theorem C4_terminal_mapping (blocking : List String)
    (pr_number MAX_WAIT_TIME : Int) (waiting_comment_posted : Bool)
    (o : IterOracle) (pr_obj : PRObj) (ms : String)
    (h1 : o.fetch1 = some pr_obj)
    (hms : getMergeableState pr_obj = ms) :
    (ms = "blocked" →
      check_pr_statusStep blocking pr_number MAX_WAIT_TIME
          waiting_comment_posted o =
        StepResult.fatal (blockedMsg pr_number)) ∧
    (ms = "dirty" →
      check_pr_statusStep blocking pr_number MAX_WAIT_TIME
          waiting_comment_posted o =
        StepResult.fatal (dirtyMsg pr_number)) ∧
    (ms = "clean" →
      check_pr_statusStep blocking pr_number MAX_WAIT_TIME
          waiting_comment_posted o =
        StepResult.done pr_obj
          (if waiting_comment_posted then [successComment pr_number] else [])) ∧
    (ms ≠ "unknown" → ms ≠ "unstable" → ms ≠ "blocked" → ms ≠ "dirty" →
      ms ≠ "clean" →
      check_pr_statusStep blocking pr_number MAX_WAIT_TIME
          waiting_comment_posted o =
        StepResult.fatal (unexpectedStateMsg pr_number ms)) := by
  refine ⟨fun hb => ?_, fun hd => ?_, fun hc => ?_,
    fun hu hun hb hd hc => ?_⟩
  · rw [check_pr_statusStep_resolved blocking pr_number MAX_WAIT_TIME
      waiting_comment_posted o pr_obj h1 (by simp [hms, hb]), hms, hb]
    simp [classifyMergeableState]
  · rw [check_pr_statusStep_resolved blocking pr_number MAX_WAIT_TIME
      waiting_comment_posted o pr_obj h1 (by simp [hms, hd]), hms, hd]
    simp [classifyMergeableState]
  · rw [check_pr_statusStep_resolved blocking pr_number MAX_WAIT_TIME
      waiting_comment_posted o pr_obj h1 (by simp [hms, hc]), hms, hc]
    by_cases hw : waiting_comment_posted
    · simp [classifyMergeableState, hw]
    · simp [classifyMergeableState, hw]
  · rw [check_pr_statusStep_resolved blocking pr_number MAX_WAIT_TIME
      waiting_comment_posted o pr_obj h1 (by simp [hms, hu]), hms]
    simp [classifyMergeableState, hun, hb, hd, hc]

/-- Witness for C4 at the spec's unrecognized example state `"weird"`. -/
theorem C4_terminal_mapping_witness :
    check_pr_statusStep [] 3 1800 false
        ⟨some ⟨some "weird", "sha1"⟩, none, 0, none⟩ =
      StepResult.fatal (unexpectedStateMsg 3 "weird") :=
  (C4_terminal_mapping [] 3 1800 false
      ⟨some ⟨some "weird", "sha1"⟩, none, 0, none⟩
      ⟨some "weird", "sha1"⟩ "weird" rfl rfl).2.2.2
    (by decide) (by decide) (by decide) (by decide) (by decide)

/-- C10: in the `"unstable"` branch the elapsed-time check runs before
the combined status is fetched and classified, so when the elapsed time
exceeds `MAX_WAIT_TIME` the poller fails with the timeout message even
when that iteration's fetched statuses would have classified as
`"success"`. -/
theorem C10_timeout_before_status (blocking : List String)
    (pr_number MAX_WAIT_TIME : Int) (waiting_comment_posted : Bool)
    (o : IterOracle) (pr_obj : PRObj) (statuses : List Status)
    (h1 : o.fetch1 = some pr_obj)
    (h2 : getMergeableState pr_obj = "unstable")
    (h3 : o.elapsed > (MAX_WAIT_TIME : ℚ))
    (h4 : o.statusFetch = some statuses)
    (h5 : check_blocking_statusesWith blocking statuses = ("success", [])) :
    check_pr_statusStep blocking pr_number MAX_WAIT_TIME
        waiting_comment_posted o =
      StepResult.fatal (timeoutMsg pr_number MAX_WAIT_TIME) := by
  rw [check_pr_statusStep_resolved blocking pr_number MAX_WAIT_TIME
    waiting_comment_posted o pr_obj h1 (by simp [h2]), h2]
  simp [classifyMergeableState, h3]

/-- Witness for C10: elapsed 2000 s against a 1800 s maximum, with a
status list that classifies as `"success"` for blocking set
`["ci/build"]`; the outcome is still the timeout failure. -/
theorem C10_timeout_before_status_witness :
    check_pr_statusStep ["ci/build"] 4 1800 false
        ⟨some ⟨some "unstable", "sha1"⟩, none, 2000,
          some [⟨"ci/build", "success"⟩]⟩ =
      StepResult.fatal (timeoutMsg 4 1800) :=
  C10_timeout_before_status ["ci/build"] 4 1800 false
    ⟨some ⟨some "unstable", "sha1"⟩, none, 2000, some [⟨"ci/build", "success"⟩]⟩
    ⟨some "unstable", "sha1"⟩ [⟨"ci/build", "success"⟩]
    rfl rfl (by norm_num) rfl (by decide)
